import Mathlib

/-!
Shallow embedding of the fMP4 muxer in
`src/packages/wasm-core/src/muxide_muxer.rs`.

Bytes are modelled as `Nat` values; byte strings as `List Nat`.  Rust's
`to_be_bytes` serializers take each output byte modulo 256, so `u16be`,
`u32be` and `u64be` below coincide with the Rust serializers on every
input (the implicit `as uN` wrap is absorbed by the per-byte `% 256`).
`u64` counters (decode times, tick sums) are modelled as `Nat`: the code
only adds to them and the wrap at `2^64` is unreachable for any input the
counters can see before serialization, which itself wraps via `u64be`.
Explicit `% 2 ^ 32` appears exactly where Rust performs an `as u32` cast
whose numeric value is used in further arithmetic.
-/

namespace Muxide

/-- Big-endian 2-byte serialization of a `u16` value (`u16::to_be_bytes`). -/
def u16be (n : Nat) : List Nat :=
  [n / 2 ^ 8 % 256, n % 256]

/-- Big-endian 4-byte serialization of a `u32` value (`u32::to_be_bytes`). -/
def u32be (n : Nat) : List Nat :=
  [n / 2 ^ 24 % 256, n / 2 ^ 16 % 256, n / 2 ^ 8 % 256, n % 256]

/-- Big-endian 8-byte serialization of a `u64` value (`u64::to_be_bytes`). -/
def u64be (n : Nat) : List Nat :=
  [n / 2 ^ 56 % 256, n / 2 ^ 48 % 256, n / 2 ^ 40 % 256, n / 2 ^ 32 % 256,
   n / 2 ^ 24 % 256, n / 2 ^ 16 % 256, n / 2 ^ 8 % 256, n % 256]

/-- Big-endian 4-byte serialization of an `i32` value in two's complement
(`i32::to_be_bytes` after Rust's `as i32` truncation of a wider integer). -/
def i32be (z : Int) : List Nat :=
  u32be (z % 2 ^ 32).toNat

/-- Configuration for the muxer (`MuxideConfig`). -/
structure MuxideConfig where
  video_width : Nat
  video_height : Nat
  video_timescale : Nat
  fragment_duration_ms : Nat
  sps : List Nat
  pps : List Nat
  audio_sample_rate : Option Nat
  audio_channels : Option Nat
  audio_timescale : Option Nat
  audio_specific_config : Option (List Nat)
deriving Repr, DecidableEq

/-- `MuxideConfig::default()`. -/
def MuxideConfig.default : MuxideConfig where
  video_width := 1280
  video_height := 720
  video_timescale := 90000
  fragment_duration_ms := 2000
  sps := []
  pps := []
  audio_sample_rate := none
  audio_channels := none
  audio_timescale := none
  audio_specific_config := none

/-- Video sample information (`VideoSample`). -/
structure VideoSample where
  pts : Nat
  dts : Nat
  data : List Nat
  is_sync : Bool
deriving Repr, DecidableEq

/-- Audio sample information (`AudioSample`). -/
structure AudioSample where
  pts : Nat
  data : List Nat
  duration : Nat
deriving Repr, DecidableEq

/-- State machine for fMP4 muxing (`MuxideMuxerState`). -/
structure MuxideMuxerState where
  config : MuxideConfig
  initialized : Bool
  init_segment : List Nat
  pending_segments : List (List Nat)
  video_frame_count : Nat
  audio_frame_count : Nat
  video_samples : List VideoSample
  video_sequence_number : Nat
  video_base_media_decode_time : Nat
  audio_samples : List AudioSample
  audio_sequence_number : Nat
  audio_base_media_decode_time : Nat
deriving Repr, DecidableEq

/-- `MuxideMuxerState::new(config)`. -/
def MuxideMuxerState.new (config : MuxideConfig) : MuxideMuxerState where
  config := config
  initialized := false
  init_segment := []
  pending_segments := []
  video_frame_count := 0
  audio_frame_count := 0
  video_samples := []
  video_sequence_number := 1
  video_base_media_decode_time := 0
  audio_samples := []
  audio_sequence_number := 1
  audio_base_media_decode_time := 0

/-- `MuxideMuxerState::has_audio`. -/
def MuxideMuxerState.has_audio (s : MuxideMuxerState) : Bool :=
  s.config.audio_sample_rate.isSome && s.config.audio_channels.isSome

/-- Build a generic MP4 box with type and payload (`build_box`).  `typ` is the
4-byte box tag as a byte list. -/
def build_box (typ : List Nat) (payload : List Nat) : List Nat :=
  u32be (8 + payload.length) ++ typ ++ payload

/-- Build ftyp box for fMP4 (`build_ftyp`).  Brands are the ASCII bytes of
`iso5`, minor version 0, compatible brands `iso5`, `iso6`, `mp41`. -/
def build_ftyp : List Nat :=
  build_box [0x66, 0x74, 0x79, 0x70]
    ([0x69, 0x73, 0x6f, 0x35] ++ u32be 0 ++
     [0x69, 0x73, 0x6f, 0x35] ++ [0x69, 0x73, 0x6f, 0x36] ++ [0x6d, 0x70, 0x34, 0x31])

/-- Build mvhd (movie header) box (`build_mvhd`). -/
def build_mvhd (timescale : Nat) (next_track_id : Nat) : List Nat :=
  build_box [0x6d, 0x76, 0x68, 0x64]
    (u32be 0 ++ u32be 0 ++ u32be 0 ++ u32be timescale ++ u32be 0 ++
     u32be 0x00010000 ++ u16be 0x0100 ++ List.replicate 10 0 ++
     u32be 0x00010000 ++ List.replicate 12 0 ++
     u32be 0x00010000 ++ List.replicate 12 0 ++
     u32be 0x40000000 ++ List.replicate 24 0 ++ u32be next_track_id)

/-- Build trex (track extends) box (`build_trex`). -/
def build_trex (track_id : Nat) : List Nat :=
  build_box [0x74, 0x72, 0x65, 0x78]
    (u32be 0 ++ u32be track_id ++ u32be 1 ++ u32be 0 ++ u32be 0 ++ u32be 0)

/-- Build mvex (movie extends) box (`build_mvex`). -/
def build_mvex (has_audio : Bool) : List Nat :=
  build_box [0x6d, 0x76, 0x65, 0x78]
    (build_trex 1 ++ if has_audio then build_trex 2 else [])

/-- Encode ISO 639-2/T language code (`encode_language_code`), taking the three
character codes as numbers; `Nat` subtraction matches `saturating_sub`. -/
def encode_language_code (c1 c2 c3 : Nat) : List Nat :=
  u16be (((c1 - 0x60) % 32) * 2 ^ 10 + ((c2 - 0x60) % 32) * 2 ^ 5 + (c3 - 0x60) % 32)

/-- Build mdhd (media header) box (`build_mdhd`); the language is always the
packed form of the string `und` (codes 0x75, 0x6e, 0x64). -/
def build_mdhd (timescale : Nat) : List Nat :=
  build_box [0x6d, 0x64, 0x68, 0x64]
    (u32be 0 ++ u32be 0 ++ u32be 0 ++ u32be timescale ++ u32be 0 ++
     encode_language_code 0x75 0x6e 0x64 ++ u16be 0)

/-- Build hdlr (handler) box (`build_hdlr`). -/
def build_hdlr (handler_type : List Nat) (name : List Nat) : List Nat :=
  build_box [0x68, 0x64, 0x6c, 0x72]
    (u32be 0 ++ u32be 0 ++ handler_type ++ List.replicate 12 0 ++ name)

/-- Build vmhd (video media header) box (`build_vmhd`). -/
def build_vmhd : List Nat :=
  build_box [0x76, 0x6d, 0x68, 0x64] (u32be 0x00000001 ++ List.replicate 8 0)

/-- Build dinf (data information) box (`build_dinf`). -/
def build_dinf : List Nat :=
  build_box [0x64, 0x69, 0x6e, 0x66]
    (build_box [0x64, 0x72, 0x65, 0x66]
      (u32be 0 ++ u32be 1 ++ build_box [0x75, 0x72, 0x6c, 0x20] [0x00, 0x00, 0x00, 0x01]))

/-- Build empty stts box (`build_empty_stts`). -/
def build_empty_stts : List Nat :=
  build_box [0x73, 0x74, 0x74, 0x73] (u32be 0 ++ u32be 0)

/-- Build empty stsc box (`build_empty_stsc`). -/
def build_empty_stsc : List Nat :=
  build_box [0x73, 0x74, 0x73, 0x63] (u32be 0 ++ u32be 0)

/-- Build empty stsz box (`build_empty_stsz`). -/
def build_empty_stsz : List Nat :=
  build_box [0x73, 0x74, 0x73, 0x7a] (u32be 0 ++ u32be 0 ++ u32be 0)

/-- Build empty stco box (`build_empty_stco`). -/
def build_empty_stco : List Nat :=
  build_box [0x73, 0x74, 0x63, 0x6f] (u32be 0 ++ u32be 0)

/-- Build avcC (AVC Configuration) box (`build_avcc`).  Profile, compatibility
and level bytes come from SPS bytes 1..3 with defaults 0x42/0x00/0x1e; the
SPS and PPS length fields are `u16` casts of the list lengths. -/
def build_avcc (config : MuxideConfig) : List Nat :=
  build_box [0x61, 0x76, 0x63, 0x43]
    ([1, config.sps.getD 1 0x42, config.sps.getD 2 0x00, config.sps.getD 3 0x1e,
      0xff, 0xe1] ++
     u16be config.sps.length ++ config.sps ++
     [1] ++ u16be config.pps.length ++ config.pps)

/-- Build avc1 (H.264 sample entry) box (`build_avc1`). -/
def build_avc1 (config : MuxideConfig) : List Nat :=
  build_box [0x61, 0x76, 0x63, 0x31]
    (List.replicate 6 0 ++ u16be 1 ++ u16be 0 ++ u16be 0 ++ List.replicate 12 0 ++
     u16be config.video_width ++ u16be config.video_height ++
     u32be 0x00480000 ++ u32be 0x00480000 ++ u32be 0 ++ u16be 1 ++
     List.replicate 32 0 ++ u16be 0x0018 ++ u16be 0xffff ++ build_avcc config)

/-- Build video stsd (sample description) box (`build_video_stsd`). -/
def build_video_stsd (config : MuxideConfig) : List Nat :=
  build_box [0x73, 0x74, 0x73, 0x64] (u32be 0 ++ u32be 1 ++ build_avc1 config)

/-- Build video stbl (sample table) box (`build_video_stbl`). -/
def build_video_stbl (config : MuxideConfig) : List Nat :=
  build_box [0x73, 0x74, 0x62, 0x6c]
    (build_video_stsd config ++ build_empty_stts ++ build_empty_stsc ++
     build_empty_stsz ++ build_empty_stco)

/-- Build video minf (media info) box (`build_video_minf`). -/
def build_video_minf (config : MuxideConfig) : List Nat :=
  build_box [0x6d, 0x69, 0x6e, 0x66] (build_vmhd ++ build_dinf ++ build_video_stbl config)

/-- Build video mdia (media) box (`build_video_mdia`); the handler name is the
byte string `VideoHandler` followed by a NUL. -/
def build_video_mdia (config : MuxideConfig) : List Nat :=
  build_box [0x6d, 0x64, 0x69, 0x61]
    (build_mdhd config.video_timescale ++
     build_hdlr [0x76, 0x69, 0x64, 0x65]
       [0x56, 0x69, 0x64, 0x65, 0x6f, 0x48, 0x61, 0x6e, 0x64, 0x6c, 0x65, 0x72, 0x00] ++
     build_video_minf config)

/-- Build video tkhd (track header) box (`build_video_tkhd`); width and height
are serialized in 16.16 fixed point (`u32` wrap absorbed by `u32be`). -/
def build_video_tkhd (config : MuxideConfig) : List Nat :=
  build_box [0x74, 0x6b, 0x68, 0x64]
    (u32be 0x00000003 ++ u32be 0 ++ u32be 0 ++ u32be 1 ++ u32be 0 ++ u32be 0 ++
     List.replicate 8 0 ++ u16be 0 ++ u16be 0 ++ u16be 0 ++ u16be 0 ++
     u32be 0x00010000 ++ List.replicate 12 0 ++
     u32be 0x00010000 ++ List.replicate 12 0 ++
     u32be 0x40000000 ++
     u32be (config.video_width * 2 ^ 16) ++ u32be (config.video_height * 2 ^ 16))

/-- Build video trak box (`build_video_trak`). -/
def build_video_trak (config : MuxideConfig) : List Nat :=
  build_box [0x74, 0x72, 0x61, 0x6b] (build_video_tkhd config ++ build_video_mdia config)

/-- Build ISO 14496 descriptor with tag and length (`build_descriptor`). -/
def build_descriptor (tag : Nat) (data : List Nat) : List Nat :=
  tag ::
    (if data.length < 128 then
      [data.length]
    else
      [0x80 + data.length / 2 ^ 21 % 128, 0x80 + data.length / 2 ^ 14 % 128,
       0x80 + data.length / 2 ^ 7 % 128, data.length % 128]) ++ data

/-- Build AudioSpecificConfig for AAC-LC (`build_audio_specific_config`). -/
def build_audio_specific_config (sample_rate : Nat) (channels : Nat) : List Nat :=
  let sample_rate_index : Nat :=
    if sample_rate = 96000 then 0
    else if sample_rate = 88200 then 1
    else if sample_rate = 64000 then 2
    else if sample_rate = 48000 then 3
    else if sample_rate = 44100 then 4
    else if sample_rate = 32000 then 5
    else if sample_rate = 24000 then 6
    else if sample_rate = 22050 then 7
    else if sample_rate = 16000 then 8
    else if sample_rate = 12000 then 9
    else if sample_rate = 11025 then 10
    else if sample_rate = 8000 then 11
    else if sample_rate = 7350 then 12
    else 3
  let channel_config := min channels 7
  [2 * 2 ^ 3 + sample_rate_index / 2,
   sample_rate_index % 2 * 2 ^ 7 + channel_config * 2 ^ 3]

/-- Build esds (Elementary Stream Descriptor) box (`build_esds`). -/
def build_esds (config : MuxideConfig) : List Nat :=
  let sample_rate := config.audio_sample_rate.getD 48000
  let channels := config.audio_channels.getD 2
  let audio_specific_config :=
    config.audio_specific_config.getD (build_audio_specific_config sample_rate channels)
  let decoder_config :=
    [0x40, 0x05 * 2 ^ 2 + 0x01] ++ [0x00, 0x00, 0x00] ++
    u32be 128000 ++ u32be 128000 ++ build_descriptor 0x05 audio_specific_config
  let es_descriptor :=
    u16be 0 ++ [0] ++ build_descriptor 0x04 decoder_config ++ build_descriptor 0x06 [0x02]
  build_box [0x65, 0x73, 0x64, 0x73] (u32be 0 ++ build_descriptor 0x03 es_descriptor)

/-- Build mp4a (AAC sample entry) box (`build_mp4a`). -/
def build_mp4a (config : MuxideConfig) : List Nat :=
  let sample_rate := config.audio_sample_rate.getD 48000
  let channels := config.audio_channels.getD 2
  build_box [0x6d, 0x70, 0x34, 0x61]
    (List.replicate 6 0 ++ u16be 1 ++ u16be 0 ++ u16be 0 ++ u32be 0 ++
     u16be channels ++ u16be 16 ++ u16be 0 ++ u16be 0 ++
     u32be (sample_rate * 2 ^ 16) ++ build_esds config)

/-- Build smhd (sound media header) box (`build_smhd`). -/
def build_smhd : List Nat :=
  build_box [0x73, 0x6d, 0x68, 0x64] (u32be 0 ++ u16be 0 ++ u16be 0)

/-- Build audio stsd (sample description) box (`build_audio_stsd`). -/
def build_audio_stsd (config : MuxideConfig) : List Nat :=
  build_box [0x73, 0x74, 0x73, 0x64] (u32be 0 ++ u32be 1 ++ build_mp4a config)

/-- Build audio stbl (sample table) box (`build_audio_stbl`). -/
def build_audio_stbl (config : MuxideConfig) : List Nat :=
  build_box [0x73, 0x74, 0x62, 0x6c]
    (build_audio_stsd config ++ build_empty_stts ++ build_empty_stsc ++
     build_empty_stsz ++ build_empty_stco)

/-- Build audio minf (media info) box (`build_audio_minf`). -/
def build_audio_minf (config : MuxideConfig) : List Nat :=
  build_box [0x6d, 0x69, 0x6e, 0x66] (build_smhd ++ build_dinf ++ build_audio_stbl config)

/-- Build audio mdia (media) box (`build_audio_mdia`); the handler name is the
byte string `SoundHandler` followed by a NUL. -/
def build_audio_mdia (config : MuxideConfig) : List Nat :=
  let audio_timescale :=
    config.audio_timescale.getD (config.audio_sample_rate.getD 48000)
  build_box [0x6d, 0x64, 0x69, 0x61]
    (build_mdhd audio_timescale ++
     build_hdlr [0x73, 0x6f, 0x75, 0x6e]
       [0x53, 0x6f, 0x75, 0x6e, 0x64, 0x48, 0x61, 0x6e, 0x64, 0x6c, 0x65, 0x72, 0x00] ++
     build_audio_minf config)

/-- Build audio tkhd (track header) box (`build_audio_tkhd`). -/
def build_audio_tkhd : List Nat :=
  build_box [0x74, 0x6b, 0x68, 0x64]
    (u32be 0x00000003 ++ u32be 0 ++ u32be 0 ++ u32be 2 ++ u32be 0 ++ u32be 0 ++
     List.replicate 8 0 ++ u16be 0 ++ u16be 0 ++ u16be 0x0100 ++ u16be 0 ++
     u32be 0x00010000 ++ List.replicate 12 0 ++
     u32be 0x00010000 ++ List.replicate 12 0 ++
     u32be 0x40000000 ++ u32be 0 ++ u32be 0)

/-- Build audio trak box (`build_audio_trak`). -/
def build_audio_trak (config : MuxideConfig) : List Nat :=
  build_box [0x74, 0x72, 0x61, 0x6b] (build_audio_tkhd ++ build_audio_mdia config)

/-- Build moov box with video and optionally audio tracks (`build_moov`). -/
def build_moov (config : MuxideConfig) : List Nat :=
  let has_audio := config.audio_sample_rate.isSome && config.audio_channels.isSome
  let next_track_id := if has_audio then 3 else 2
  build_box [0x6d, 0x6f, 0x6f, 0x76]
    (build_mvhd config.video_timescale next_track_id ++ build_mvex has_audio ++
     build_video_trak config ++
     if has_audio then build_audio_trak config else [])

/-- Build the complete init segment, ftyp followed by moov
(`build_init_segment`). -/
def build_init_segment (config : MuxideConfig) : List Nat :=
  build_ftyp ++ build_moov config

instance : Inhabited VideoSample := ⟨⟨0, 0, [], false⟩⟩

instance : Inhabited AudioSample := ⟨⟨0, [], 0⟩⟩

/-- The per-sample duration written for sample `i` of a video trun: the next
interval when a next sample exists, else the previous interval, else the
3000-tick fallback.  This is the duration expression of the loop in
`build_video_trun`, and the identical expression recomputed in
`calculate_video_trun_total_duration`.  The `% 2 ^ 32` is Rust's `as u32`
cast; the `u64` subtraction is modelled as truncated `Nat` subtraction
(underflow, ruled out by the input contract, is where the two diverge). -/
def video_trun_duration (samples : List VideoSample) (i : Nat) : Nat :=
  if i + 1 < samples.length then
    ((samples.getD (i + 1) default).dts - (samples.getD i default).dts) % 2 ^ 32
  else if 0 < i then
    ((samples.getD i default).dts - (samples.getD (i - 1) default).dts) % 2 ^ 32
  else
    3000

/-- Build video trun (track run) box (`build_video_trun`): version 1, flags
data-offset | duration | size | flags | composition-time-offset, then one
(duration, size, flags, cts) record per sample. -/
def build_video_trun (samples : List VideoSample) (data_offset : Nat) : List Nat :=
  build_box [0x74, 0x72, 0x75, 0x6e]
    (u32be (0x01000000 + (0x000001 + 0x000100 + 0x000200 + 0x000400 + 0x000800)) ++
     u32be samples.length ++ u32be data_offset ++
     ((List.range samples.length).map (fun i =>
        u32be (video_trun_duration samples i) ++
        u32be (samples.getD i default).data.length ++
        u32be (if (samples.getD i default).is_sync then 0x02000000 else 0x01010000) ++
        i32be (((samples.getD i default).pts : Int) - ((samples.getD i default).dts : Int)))).flatten)

/-- Build audio trun (track run) box (`build_audio_trun`): version 0, flags
data-offset | duration | size, then one (duration, size) record per sample. -/
def build_audio_trun (samples : List AudioSample) (data_offset : Nat) : List Nat :=
  build_box [0x74, 0x72, 0x75, 0x6e]
    (u32be (0x000001 + 0x000100 + 0x000200) ++
     u32be samples.length ++ u32be data_offset ++
     (samples.map (fun sample => u32be sample.duration ++ u32be sample.data.length)).flatten)

/-- Build tfhd (track fragment header) box (`build_tfhd`), flags
default-base-is-moof. -/
def build_tfhd (track_id : Nat) : List Nat :=
  build_box [0x74, 0x66, 0x68, 0x64] (u32be 0x00020000 ++ u32be track_id)

/-- Build tfdt (track fragment decode time) box (`build_tfdt`), version 1 with
a 64-bit decode time. -/
def build_tfdt (base_media_decode_time : Nat) : List Nat :=
  build_box [0x74, 0x66, 0x64, 0x74] (u32be 0x01000000 ++ u64be base_media_decode_time)

/-- Build mfhd (movie fragment header) box (`build_mfhd`). -/
def build_mfhd (sequence_number : Nat) : List Nat :=
  build_box [0x6d, 0x66, 0x68, 0x64] (u32be 0 ++ u32be sequence_number)

/-- Build video traf (track fragment) box (`build_video_traf`). -/
def build_video_traf (samples : List VideoSample) (base_media_decode_time : Nat)
    (data_offset : Nat) : List Nat :=
  build_box [0x74, 0x72, 0x61, 0x66]
    (build_tfhd 1 ++ build_tfdt base_media_decode_time ++ build_video_trun samples data_offset)

/-- Build audio traf (track fragment) box (`build_audio_traf`). -/
def build_audio_traf (samples : List AudioSample) (base_media_decode_time : Nat)
    (data_offset : Nat) : List Nat :=
  build_box [0x74, 0x72, 0x61, 0x66]
    (build_tfhd 2 ++ build_tfdt base_media_decode_time ++ build_audio_trun samples data_offset)

/-- Build moof box with video and audio trafs (`build_moof_av`). -/
def build_moof_av (video_samples : List VideoSample) (audio_samples : List AudioSample)
    (sequence_number : Nat) (video_base_decode_time : Nat) (audio_base_decode_time : Nat)
    (video_data_offset : Nat) (audio_data_offset : Nat) (has_audio : Bool) : List Nat :=
  build_box [0x6d, 0x6f, 0x6f, 0x66]
    (build_mfhd sequence_number ++
     build_video_traf video_samples video_base_decode_time video_data_offset ++
     if has_audio && !audio_samples.isEmpty then
       build_audio_traf audio_samples audio_base_decode_time audio_data_offset
     else [])

/-- Build media segment with video and audio (`build_media_segment_av`): a moof
built twice — once with placeholder zero offsets to measure its size, once
with the real offsets — followed by the mdat box holding all video data then
all audio data.  Offsets are kept as plain `Nat`; they are only observed
through `u32be`, which wraps exactly as the Rust `u32` arithmetic does. -/
def build_media_segment_av (video_samples : List VideoSample)
    (audio_samples : List AudioSample) (sequence_number : Nat)
    (video_base_decode_time : Nat) (audio_base_decode_time : Nat)
    (config : MuxideConfig) : List Nat :=
  let has_audio := config.audio_sample_rate.isSome && config.audio_channels.isSome &&
    !audio_samples.isEmpty
  let video_data_size := (video_samples.map (fun s => s.data.length)).sum
  let audio_data_size := (audio_samples.map (fun s => s.data.length)).sum
  let mdat_payload_size := video_data_size + audio_data_size
  let moof_placeholder := build_moof_av video_samples audio_samples sequence_number
    video_base_decode_time audio_base_decode_time 0 0 has_audio
  let moof_size := moof_placeholder.length
  let video_data_offset := moof_size + 8
  let audio_data_offset := video_data_offset + video_data_size
  let moof := build_moof_av video_samples audio_samples sequence_number
    video_base_decode_time audio_base_decode_time video_data_offset audio_data_offset has_audio
  moof ++ u32be (8 + mdat_payload_size) ++ [0x6d, 0x64, 0x61, 0x74] ++
    (video_samples.map (fun s => s.data)).flatten ++ (audio_samples.map (fun s => s.data)).flatten

/-- Calculate total video duration matching the trun box logic exactly
(`calculate_video_trun_total_duration`): a running sum over the same
per-sample duration expression serialized by `build_video_trun`. -/
def calculate_video_trun_total_duration (samples : List VideoSample) : Nat :=
  (List.range samples.length).foldl (fun total i => total + video_trun_duration samples i) 0

/-- Calculate total audio duration from sample durations
(`calculate_audio_trun_total_duration`). -/
def calculate_audio_trun_total_duration (samples : List AudioSample) : Nat :=
  (samples.map (fun s => (s.duration : Nat))).sum

/-- Flush all pending samples into a media segment (`flush_segments`): a no-op
when no video sample is buffered, otherwise emit one segment, advance both
base decode times, bump the sequence number and clear both buffers. -/
def MuxideMuxerState.flush_segments (s : MuxideMuxerState) : MuxideMuxerState :=
  if s.video_samples.isEmpty then s
  else
    let segment := build_media_segment_av s.video_samples s.audio_samples
      s.video_sequence_number s.video_base_media_decode_time
      s.audio_base_media_decode_time s.config
    { s with
      video_sequence_number := s.video_sequence_number + 1
      video_base_media_decode_time :=
        s.video_base_media_decode_time + calculate_video_trun_total_duration s.video_samples
      audio_base_media_decode_time :=
        s.audio_base_media_decode_time + calculate_audio_trun_total_duration s.audio_samples
      video_samples := []
      audio_samples := []
      pending_segments := s.pending_segments ++ [segment] }

/-- Check if we should flush segments based on video duration
(`check_and_flush_segments`).  The `u64` subtraction `last_dts - first_dts`
is modelled as truncated `Nat` subtraction; underflow is ruled out by the
monotone-timestamp input contract (see the totality lemmas). -/
def MuxideMuxerState.check_and_flush_segments (s : MuxideMuxerState) : MuxideMuxerState :=
  if s.video_samples.length < 2 then s
  else
    let first_dts := (s.video_samples.getD 0 default).dts
    let last_dts := (s.video_samples.getLastD default).dts
    let duration_ticks := last_dts - first_dts
    let duration_ms := duration_ticks * 1000 / s.config.video_timescale
    if duration_ms ≥ s.config.fragment_duration_ms then s.flush_segments else s

/-- Initialize the muxer and generate the fMP4 header (`init`).  Mutating Rust
methods returning `Result` are modelled as a pair of the `Result` value and
the post-state; on the error paths the state is returned unchanged, exactly
as the Rust early returns leave `self` untouched. -/
def MuxideMuxerState.init (s : MuxideMuxerState) : Except String Unit × MuxideMuxerState :=
  if s.initialized then (Except.error "Muxer already initialized", s)
  else if s.config.sps.isEmpty || s.config.pps.isEmpty then
    (Except.error "SPS and PPS are required for initialization", s)
  else
    (Except.ok (), { s with init_segment := build_init_segment s.config, initialized := true })

/-- Get the initialization segment (`get_init_segment`); takes `&self`, so no
post-state is returned. -/
def MuxideMuxerState.get_init_segment (s : MuxideMuxerState) : Except String (List Nat) :=
  if !s.initialized then Except.error "Muxer not initialized"
  else Except.ok s.init_segment

/-- Add a video chunk (`push_video_chunk`): convert the microsecond timestamp
to timescale ticks (truncating division), append the sample, then run the
auto-flush check. -/
def MuxideMuxerState.push_video_chunk (s : MuxideMuxerState) (data : List Nat)
    (timestamp : Nat) (is_keyframe : Bool) : Except String Unit × MuxideMuxerState :=
  if !s.initialized then (Except.error "Muxer not initialized", s)
  else
    let pts := timestamp * s.config.video_timescale / 1000000
    let dts := pts
    let s1 := { s with
      video_samples := s.video_samples ++
        [({ pts := pts, dts := dts, data := data, is_sync := is_keyframe } : VideoSample)]
      video_frame_count := s.video_frame_count + 1 }
    (Except.ok (), s1.check_and_flush_segments)

/-- Add an audio chunk (`push_audio_chunk`): the pts conversion truncates, the
duration conversion rounds by adding 500000 before dividing by 1000000; the
`as u32` on the rounded duration is the explicit `% 2 ^ 32`. -/
def MuxideMuxerState.push_audio_chunk (s : MuxideMuxerState) (data : List Nat)
    (timestamp : Nat) (duration : Nat) : Except String Unit × MuxideMuxerState :=
  if !s.initialized then (Except.error "Muxer not initialized", s)
  else if !s.has_audio then (Except.error "Audio not configured", s)
  else
    let audio_timescale := s.config.audio_timescale.getD (s.config.audio_sample_rate.getD 48000)
    let pts := timestamp * audio_timescale / 1000000
    let duration_ts := (duration * audio_timescale + 500000) / 1000000 % 2 ^ 32
    (Except.ok (), { s with
      audio_samples := s.audio_samples ++
        [({ pts := pts, data := data, duration := duration_ts } : AudioSample)]
      audio_frame_count := s.audio_frame_count + 1 })

/-- Force flush the current segment (`force_flush`). -/
def MuxideMuxerState.force_flush (s : MuxideMuxerState) : Except String Unit × MuxideMuxerState :=
  if !s.initialized then (Except.error "Muxer not initialized", s)
  else (Except.ok (), s.flush_segments)

/-- Get all pending media segments and clear them (`get_pending_segments`). -/
def MuxideMuxerState.get_pending_segments (s : MuxideMuxerState) :
    List (List Nat) × MuxideMuxerState :=
  (s.pending_segments, { s with pending_segments := [] })

/-- Check if there are any pending segments (`has_pending_segments`). -/
def MuxideMuxerState.has_pending_segments (s : MuxideMuxerState) : Bool :=
  !s.pending_segments.isEmpty

/-- Get the complete fMP4 file (`get_complete_file`): force-flush, then the
init segment followed by every pending segment, clearing the pending list. -/
def MuxideMuxerState.get_complete_file (s : MuxideMuxerState) :
    Except String (List Nat) × MuxideMuxerState :=
  if !s.initialized then (Except.error "Muxer not initialized", s)
  else
    match s.force_flush with
    | (Except.error e, s1) => (Except.error e, s1)
    | (Except.ok _, s1) =>
      (Except.ok (s1.init_segment ++ s1.pending_segments.flatten),
       { s1 with pending_segments := [] })

/-- The skip loop of `extract_sps_pps_from_avcc` over the SPS entries after the
first: for each, require the 2-byte length field to be in bounds and jump
over the declared payload. -/
def skip_additional_sps (avcc : List Nat) : Nat → Nat → Except String Nat
  | 0, offset => Except.ok offset
  | n + 1, offset =>
    if offset + 2 > avcc.length then Except.error "avcC truncated at additional SPS"
    else
      skip_additional_sps avcc n (offset + 2 + (avcc.getD offset 0 * 256 + avcc.getD (offset + 1) 0))

/-- Extract SPS and PPS from an avcC decoder configuration record
(`extract_sps_pps_from_avcc`).  Offsets follow the Rust code: version at 0,
SPS count (low 5 bits) at 5, first SPS length at 6..8, first SPS data at 8,
remaining SPS skipped, then PPS count, first PPS length, first PPS data. -/
def extract_sps_pps_from_avcc (avcc : List Nat) : Except String (List Nat × List Nat) :=
  if avcc.length < 7 then Except.error "avcC too short"
  else if avcc.getD 0 0 ≠ 1 then
    Except.error ("Invalid avcC version: " ++ toString (avcc.getD 0 0))
  else
    let num_sps := avcc.getD 5 0 % 32
    if num_sps = 0 then Except.error "No SPS found in avcC"
    else if 6 + 2 > avcc.length then Except.error "avcC truncated at SPS length"
    else
      let sps_length := avcc.getD 6 0 * 256 + avcc.getD 7 0
      if 8 + sps_length > avcc.length then Except.error "avcC truncated at SPS data"
      else
        let sps := (avcc.drop 8).take sps_length
        match skip_additional_sps avcc (num_sps - 1) (8 + sps_length) with
        | Except.error e => Except.error e
        | Except.ok offset =>
          if offset ≥ avcc.length then Except.error "avcC truncated at PPS count"
          else
            let num_pps := avcc.getD offset 0
            if num_pps = 0 then Except.error "No PPS found in avcC"
            else if offset + 1 + 2 > avcc.length then
              Except.error "avcC truncated at PPS length"
            else
              let pps_length := avcc.getD (offset + 1) 0 * 256 + avcc.getD (offset + 2) 0
              if offset + 3 + pps_length > avcc.length then
                Except.error "avcC truncated at PPS data"
              else
                Except.ok (sps, (avcc.drop (offset + 3)).take pps_length)

/-- The 4-byte start-code test of `annex_b_to_avcc` at index `i`:
`i + 4 <= len` and bytes `00 00 00 01`. -/
def is_start_code_4 (l : List Nat) (i : Nat) : Bool :=
  decide (i + 4 ≤ l.length) && (l.getD i 0 == 0) && (l.getD (i + 1) 0 == 0) &&
    (l.getD (i + 2) 0 == 0) && (l.getD (i + 3) 0 == 1)

/-- The 3-byte start-code test of `annex_b_to_avcc` at index `i`:
`i + 3 <= len` and bytes `00 00 01`. -/
def is_start_code_3 (l : List Nat) (i : Nat) : Bool :=
  decide (i + 3 ≤ l.length) && (l.getD i 0 == 0) && (l.getD (i + 1) 0 == 0) &&
    (l.getD (i + 2) 0 == 1)

/-- The inner scan of `annex_b_to_avcc` that finds the next start code at or
after `j`, returning `l.length` when none exists. -/
def find_next_start_code (l : List Nat) (j : Nat) : Nat :=
  if j < l.length then
    if is_start_code_4 l j || is_start_code_3 l j then j
    else find_next_start_code l (j + 1)
  else l.length
termination_by l.length - j

/-- `find_next_start_code` never points past the end of the input. -/
theorem find_next_start_code_le (l : List Nat) (j : Nat) :
    find_next_start_code l j ≤ l.length := by
  unfold find_next_start_code
  split
  · split
    · omega
    · exact find_next_start_code_le l (j + 1)
  · exact Nat.le_refl _
termination_by l.length - j

/-- `find_next_start_code` never moves backwards from an in-bounds start. -/
theorem le_find_next_start_code (l : List Nat) (j : Nat) (h : j ≤ l.length) :
    j ≤ find_next_start_code l j := by
  unfold find_next_start_code
  split
  · split
    · exact Nat.le_refl _
    · exact Nat.le_trans (Nat.le_succ j) (le_find_next_start_code l (j + 1) (by omega))
  · exact h
termination_by l.length - j

/-- The trailing-zero stripping loop of `annex_b_to_avcc`: decrement `nal_end`
while it exceeds `nal_start` and the preceding byte is zero. -/
def strip_trailing_zeros (l : List Nat) (nal_start : Nat) (nal_end : Nat) : Nat :=
  if h : nal_start < nal_end ∧ l.getD (nal_end - 1) 0 = 0 then
    strip_trailing_zeros l nal_start (nal_end - 1)
  else nal_end
termination_by nal_end
decreasing_by omega

/-- Stripping trailing zeros never increases the end index. -/
theorem strip_trailing_zeros_le (l : List Nat) (nal_start nal_end : Nat) :
    strip_trailing_zeros l nal_start nal_end ≤ nal_end := by
  unfold strip_trailing_zeros
  split
  · exact Nat.le_trans (strip_trailing_zeros_le l nal_start (nal_end - 1)) (by omega)
  · exact Nat.le_refl _
termination_by nal_end
decreasing_by omega

/-- Stripping trailing zeros never moves the end before the start. -/
theorem le_strip_trailing_zeros (l : List Nat) (nal_start nal_end : Nat)
    (h : nal_start ≤ nal_end) : nal_start ≤ strip_trailing_zeros l nal_start nal_end := by
  unfold strip_trailing_zeros
  split
  · next hcond => exact le_strip_trailing_zeros l nal_start (nal_end - 1) (by omega)
  · exact h
termination_by nal_end
decreasing_by omega

/-- A 4-byte start code at `i` requires `i + 4 <= len`. -/
theorem is_start_code_4_le (l : List Nat) (i : Nat) (h : is_start_code_4 l i = true) :
    i + 4 ≤ l.length := by
  simp only [is_start_code_4, Bool.and_eq_true, decide_eq_true_eq] at h
  exact h.1.1.1.1

/-- A 3-byte start code at `i` requires `i + 3 <= len`. -/
theorem is_start_code_3_le (l : List Nat) (i : Nat) (h : is_start_code_3 l i = true) :
    i + 3 ≤ l.length := by
  simp only [is_start_code_3, Bool.and_eq_true, decide_eq_true_eq] at h
  exact h.1.1.1

/-- The main scan loop of `annex_b_to_avcc` starting at index `i`: on a start
code, locate the next start code, strip trailing zero padding, emit the
4-byte big-endian length prefix and the NAL payload when non-empty, and
resume at the NAL end; otherwise advance one byte. -/
def annex_b_loop (annex_b : List Nat) (i : Nat) : List Nat :=
  if hlt : i < annex_b.length then
    if h4 : is_start_code_4 annex_b i then
      let nal_start := i + 4
      let nal_end := strip_trailing_zeros annex_b nal_start (find_next_start_code annex_b nal_start)
      (if nal_start < nal_end then
        u32be (nal_end - nal_start) ++ (annex_b.drop nal_start).take (nal_end - nal_start)
      else []) ++ annex_b_loop annex_b nal_end
    else if h3 : is_start_code_3 annex_b i then
      let nal_start := i + 3
      let nal_end := strip_trailing_zeros annex_b nal_start (find_next_start_code annex_b nal_start)
      (if nal_start < nal_end then
        u32be (nal_end - nal_start) ++ (annex_b.drop nal_start).take (nal_end - nal_start)
      else []) ++ annex_b_loop annex_b nal_end
    else
      annex_b_loop annex_b (i + 1)
  else []
termination_by annex_b.length - i
decreasing_by
  · have h1 := is_start_code_4_le annex_b i h4
    have h2 := le_find_next_start_code annex_b (i + 4) (by omega)
    have h3 := le_strip_trailing_zeros annex_b (i + 4) (find_next_start_code annex_b (i + 4))
      (by omega)
    have h4 := strip_trailing_zeros_le annex_b (i + 4) (find_next_start_code annex_b (i + 4))
    have h5 := find_next_start_code_le annex_b (i + 4)
    omega
  · have h1 := is_start_code_3_le annex_b i h3
    have h2 := le_find_next_start_code annex_b (i + 3) (by omega)
    have h3' := le_strip_trailing_zeros annex_b (i + 3) (find_next_start_code annex_b (i + 3))
      (by omega)
    have h4 := strip_trailing_zeros_le annex_b (i + 3) (find_next_start_code annex_b (i + 3))
    have h5 := find_next_start_code_le annex_b (i + 3)
    omega
  · omega

/-- Convert Annex B format to AVCC format (`annex_b_to_avcc`). -/
def annex_b_to_avcc (annex_b : List Nat) : List Nat :=
  annex_b_loop annex_b 0

/-- Guarded u64 subtraction: the value of `a - b` exactly when no underflow
occurs, `none` on underflow. -/
def checked_sub (a b : Nat) : Option Nat :=
  if b ≤ a then some (a - b) else none

/-- Guarded version of the `last_dts - first_dts` subtraction performed by
`check_and_flush_segments`. -/
def check_duration_ticks? (samples : List VideoSample) : Option Nat :=
  checked_sub (samples.getLastD default).dts (samples.getD 0 default).dts

/-- Guarded version of the per-sample dts-delta subtractions performed by
`build_video_trun` and `calculate_video_trun_total_duration`. -/
def video_trun_duration? (samples : List VideoSample) (i : Nat) : Option Nat :=
  if i + 1 < samples.length then
    (checked_sub (samples.getD (i + 1) default).dts (samples.getD i default).dts).map
      (fun d => d % 2 ^ 32)
  else if 0 < i then
    (checked_sub (samples.getD i default).dts (samples.getD (i - 1) default).dts).map
      (fun d => d % 2 ^ 32)
  else some 3000

/-!
Helper lemmas and concrete example states used by the theorems below.
-/

theorem u16be_length (n : Nat) : (u16be n).length = 2 := rfl

theorem u32be_length (n : Nat) : (u32be n).length = 4 := rfl

theorem u64be_length (n : Nat) : (u64be n).length = 8 := rfl

theorem i32be_length (z : Int) : (i32be z).length = 4 := rfl

/-- Folding `+ f x` over a list from `init` sums the mapped values. -/
theorem foldl_add_map {α : Type} (f : α → Nat) (l : List α) (init : Nat) :
    l.foldl (fun t x => t + f x) init = init + (l.map f).sum := by
  induction l generalizing init with
  | nil => simp
  | cons a l ih => simp only [List.foldl_cons, List.map_cons, List.sum_cons, ih]; omega

/-- The running total of `calculate_video_trun_total_duration` equals the sum
of the per-sample durations `build_video_trun` serializes. -/
theorem calculate_video_eq_trun_sum (samples : List VideoSample) :
    calculate_video_trun_total_duration samples =
      ((List.range samples.length).map (video_trun_duration samples)).sum := by
  simpa [calculate_video_trun_total_duration] using
    foldl_add_map (video_trun_duration samples) (List.range samples.length) 0

/-- Summing a constant over a list multiplies it by the length. -/
theorem sum_map_const {α : Type} (l : List α) (c : Nat) :
    (l.map fun _ => c).sum = c * l.length := by
  induction l with
  | nil => simp
  | cons a l ih => simp [ih, Nat.mul_succ]; ring

/-- The video trun box length depends only on the sample count. -/
theorem build_video_trun_length (samples : List VideoSample) (off : Nat) :
    (build_video_trun samples off).length = 20 + 16 * samples.length := by
  simp [build_video_trun, build_box, u32be, i32be, List.length_flatten, List.map_map,
    Function.comp_def, sum_map_const]
  omega

/-- The audio trun box length depends only on the sample count. -/
theorem build_audio_trun_length (samples : List AudioSample) (off : Nat) :
    (build_audio_trun samples off).length = 20 + 8 * samples.length := by
  simp [build_audio_trun, build_box, u32be, List.length_flatten, List.map_map,
    Function.comp_def, sum_map_const]
  omega

/-- The video traf box length depends only on the sample count. -/
theorem build_video_traf_length (samples : List VideoSample) (b off : Nat) :
    (build_video_traf samples b off).length = 64 + 16 * samples.length := by
  simp [build_video_traf, build_box, build_tfhd, build_tfdt, u32be, u64be,
    build_video_trun_length]
  omega

/-- The audio traf box length depends only on the sample count. -/
theorem build_audio_traf_length (samples : List AudioSample) (b off : Nat) :
    (build_audio_traf samples b off).length = 64 + 8 * samples.length := by
  simp [build_audio_traf, build_box, build_tfhd, build_tfdt, u32be, u64be,
    build_audio_trun_length]
  omega

/-- The moof box length is a function of the sample counts alone — in
particular it does not depend on the data-offset arguments. -/
theorem build_moof_av_length (v : List VideoSample) (a : List AudioSample)
    (sn vb ab o1 o2 : Nat) (ha : Bool) :
    (build_moof_av v a sn vb ab o1 o2 ha).length =
      88 + 16 * v.length + (if ha && !a.isEmpty then 64 + 8 * a.length else 0) := by
  by_cases h : ha && !a.isEmpty
  · simp [build_moof_av, build_box, build_mfhd, u32be, h,
      build_video_traf_length, build_audio_traf_length]
    omega
  · simp [build_moof_av, build_box, build_mfhd, u32be, h,
      build_video_traf_length]
    omega

/-- A video-only test configuration (SPS and PPS non-empty). -/
def cfg1 : MuxideConfig :=
  { MuxideConfig.default with
    sps := [0x67, 0x42, 0xC0, 0x1E]
    pps := [0x68, 0xCE, 0x3C, 0x80] }

/-- The test configuration with audio enabled at 48 kHz stereo. -/
def cfgAudio : MuxideConfig :=
  { cfg1 with
    audio_sample_rate := some 48000
    audio_channels := some 2
    audio_timescale := some 48000 }

/-- A fresh, uninitialized muxer over `cfg1`. -/
def mux0 : MuxideMuxerState := MuxideMuxerState.new cfg1

/-- An initialized muxer with one buffered video sample. -/
def mux1 : MuxideMuxerState :=
  { config := cfg1
    initialized := true
    init_segment := []
    pending_segments := []
    video_frame_count := 1
    audio_frame_count := 0
    video_samples := [{ pts := 0, dts := 0, data := [0x65], is_sync := true }]
    video_sequence_number := 1
    video_base_media_decode_time := 0
    audio_samples := []
    audio_sequence_number := 1
    audio_base_media_decode_time := 0 }

/-- An initialized muxer with audio configured. -/
def muxA : MuxideMuxerState :=
  { MuxideMuxerState.new cfgAudio with initialized := true }

/-- An initialized muxer with audio configured, one buffered audio sample, one
previously flushed segment and no buffered video sample. -/
def muxA9 : MuxideMuxerState :=
  { muxA with
    audio_samples := [{ pts := 0, data := [0x21], duration := 1024 }]
    audio_frame_count := 1
    pending_segments := [[9, 9, 9]]
    audio_base_media_decode_time := 7 }

/-- C1: every flush that emits a segment advances `video_base_media_decode_time`
by exactly the sum of the per-sample durations that `build_video_trun`
serializes for the flushed samples (the same next-interval / previous-interval
/ 3000-fallback rule, shared through `video_trun_duration` and summed by
`calculate_video_trun_total_duration`), and advances
`audio_base_media_decode_time` by the sum of the buffered audio samples'
duration ticks; the emitted segment is built from the pre-flush base decode
times, so consecutive segments' tfdt values differ by exactly these sums. -/
theorem flush_advances_base_by_trun_sum (s : MuxideMuxerState)
    (h : s.video_samples ≠ []) :
    (s.flush_segments).video_base_media_decode_time =
      s.video_base_media_decode_time +
        ((List.range s.video_samples.length).map (video_trun_duration s.video_samples)).sum ∧
    (s.flush_segments).audio_base_media_decode_time =
      s.audio_base_media_decode_time + (s.audio_samples.map (fun a => a.duration)).sum ∧
    (s.flush_segments).pending_segments =
      s.pending_segments ++
        [build_media_segment_av s.video_samples s.audio_samples s.video_sequence_number
          s.video_base_media_decode_time s.audio_base_media_decode_time s.config] := by
  have hne : s.video_samples.isEmpty = false := by
    simpa [List.isEmpty_iff] using h
  refine ⟨?_, ?_, ?_⟩ <;>
    simp [MuxideMuxerState.flush_segments, hne, calculate_video_eq_trun_sum,
      calculate_audio_trun_total_duration]

/-- Witness for C1 at a concrete one-sample state. -/
theorem flush_advances_base_by_trun_sum_witness :
    (mux1.flush_segments).video_base_media_decode_time =
      mux1.video_base_media_decode_time +
        ((List.range mux1.video_samples.length).map (video_trun_duration mux1.video_samples)).sum :=
  (flush_advances_base_by_trun_sum mux1 (by decide)).1

/-- C3: push_audio_chunk converts its duration from microseconds to ticks by
rounding (add 500000 before dividing by 1000000) while the pts conversion
truncates; with timescale 48000 a 21333 microsecond duration is stored as
exactly 1024 ticks, and flushing a buffer whose 90 audio samples each carry
1024 ticks advances the audio base decode time by exactly 92160. -/
theorem push_audio_rounds_duration (s : MuxideMuxerState) (data : List Nat)
    (timestamp duration : Nat) (hinit : s.initialized = true) (haud : s.has_audio = true) :
    (s.push_audio_chunk data timestamp duration).2.audio_samples =
      s.audio_samples ++
        [({ pts := timestamp *
              (s.config.audio_timescale.getD (s.config.audio_sample_rate.getD 48000)) / 1000000
            data := data
            duration := (duration *
                (s.config.audio_timescale.getD (s.config.audio_sample_rate.getD 48000)) +
                500000) / 1000000 % 2 ^ 32 } : AudioSample)] ∧
    (s.config.audio_timescale.getD (s.config.audio_sample_rate.getD 48000) = 48000 →
      duration = 21333 →
      (s.push_audio_chunk data timestamp duration).2.audio_samples =
        s.audio_samples ++
          [({ pts := timestamp * 48000 / 1000000, data := data,
              duration := 1024 } : AudioSample)]) ∧
    (∀ s' : MuxideMuxerState,
      s'.audio_samples.map (fun a => a.duration) = List.replicate 90 1024 →
      s'.video_samples ≠ [] →
      (s'.flush_segments).audio_base_media_decode_time =
        s'.audio_base_media_decode_time + 90 * 1024) := by
  refine ⟨?_, ?_, ?_⟩
  · simp [MuxideMuxerState.push_audio_chunk, hinit, haud]
  · intro hts hdur
    simp [MuxideMuxerState.push_audio_chunk, hinit, haud, hts, hdur]
  · intro s' hdur hne
    have hne' : s'.video_samples.isEmpty = false := by
      simpa [List.isEmpty_iff] using hne
    simp [MuxideMuxerState.flush_segments, hne', calculate_audio_trun_total_duration, hdur,
      List.sum_replicate]

/-- Witness for C3 at a concrete audio-configured state. -/
theorem push_audio_rounds_duration_witness :
    (muxA.push_audio_chunk [0x21] 0 21333).2.audio_samples =
      muxA.audio_samples ++
        [({ pts := 0 * 48000 / 1000000, data := [0x21], duration := 1024 } : AudioSample)] :=
  (push_audio_rounds_duration muxA [0x21] 0 21333 rfl rfl).2.1 rfl rfl

/-- C5: lifecycle errors are reported and atomic: a second init fails and
changes nothing; init with empty SPS or PPS fails leaving the muxer
uninitialized; every push, flush and get operation invoked before a successful
init fails and changes nothing; pushing audio when audio is not configured
fails with the Audio-not-configured error and appends nothing. -/
theorem lifecycle_errors (s : MuxideMuxerState) :
    (s.initialized = true → s.init = (Except.error "Muxer already initialized", s)) ∧
    (s.initialized = false → (s.config.sps.isEmpty || s.config.pps.isEmpty) = true →
      s.init = (Except.error "SPS and PPS are required for initialization", s)) ∧
    (s.initialized = false →
      (∀ data t k, s.push_video_chunk data t k = (Except.error "Muxer not initialized", s)) ∧
      (∀ data t d, s.push_audio_chunk data t d = (Except.error "Muxer not initialized", s)) ∧
      s.force_flush = (Except.error "Muxer not initialized", s) ∧
      s.get_complete_file = (Except.error "Muxer not initialized", s) ∧
      s.get_init_segment = Except.error "Muxer not initialized") ∧
    (s.initialized = true → s.has_audio = false →
      ∀ data t d, s.push_audio_chunk data t d = (Except.error "Audio not configured", s)) := by
  refine ⟨?_, ?_, ?_, ?_⟩
  · intro h
    simp [MuxideMuxerState.init, h]
  · intro h hsp
    simp [MuxideMuxerState.init, h, hsp]
  · intro h
    refine ⟨?_, ?_, ?_, ?_, ?_⟩ <;>
      simp [MuxideMuxerState.push_video_chunk, MuxideMuxerState.push_audio_chunk,
        MuxideMuxerState.force_flush, MuxideMuxerState.get_complete_file,
        MuxideMuxerState.get_init_segment, h]
  · intro h haud data t d
    simp [MuxideMuxerState.push_audio_chunk, h, haud]

/-- Witness for C5: not-initialized and already-initialized branches at
concrete states. -/
theorem lifecycle_errors_witness :
    mux0.force_flush = (Except.error "Muxer not initialized", mux0) ∧
    mux1.init = (Except.error "Muxer already initialized", mux1) ∧
    mux1.push_audio_chunk [0] 0 1024 = (Except.error "Audio not configured", mux1) :=
  ⟨((lifecycle_errors mux0).2.2.1 rfl).2.2.1,
   (lifecycle_errors mux1).1 rfl,
   (lifecycle_errors mux1).2.2.2 rfl rfl [0] 0 1024⟩

/-- Unfolding of `flush_segments` on a state with a non-empty video buffer. -/
theorem flush_segments_eq (s : MuxideMuxerState) (h : s.video_samples ≠ []) :
    s.flush_segments =
      { s with
        video_sequence_number := s.video_sequence_number + 1
        video_base_media_decode_time :=
          s.video_base_media_decode_time + calculate_video_trun_total_duration s.video_samples
        audio_base_media_decode_time :=
          s.audio_base_media_decode_time + calculate_audio_trun_total_duration s.audio_samples
        video_samples := []
        audio_samples := []
        pending_segments := s.pending_segments ++
          [build_media_segment_av s.video_samples s.audio_samples s.video_sequence_number
            s.video_base_media_decode_time s.audio_base_media_decode_time s.config] } := by
  have hne : s.video_samples.isEmpty = false := by
    simpa [List.isEmpty_iff] using h
  simp [MuxideMuxerState.flush_segments, hne]

/-- The auto-flush check flushes exactly when at least two video samples are
buffered and the buffered span reaches the configured fragment duration. -/
theorem check_and_flush_eq (s1 : MuxideMuxerState) :
    s1.check_and_flush_segments =
      if 2 ≤ s1.video_samples.length ∧
          s1.config.fragment_duration_ms ≤
            ((s1.video_samples.getLastD default).dts - (s1.video_samples.getD 0 default).dts) *
              1000 / s1.config.video_timescale
      then s1.flush_segments else s1 := by
  unfold MuxideMuxerState.check_and_flush_segments
  by_cases h1 : s1.video_samples.length < 2
  · rw [if_pos h1, if_neg (fun hc => absurd hc.1 (by omega))]
  · rw [if_neg h1]
    show (if s1.config.fragment_duration_ms ≤
        ((s1.video_samples.getLastD default).dts - (s1.video_samples.getD 0 default).dts) *
          1000 / s1.config.video_timescale
      then s1.flush_segments else s1) = _
    by_cases h2 : s1.config.fragment_duration_ms ≤
        ((s1.video_samples.getLastD default).dts - (s1.video_samples.getD 0 default).dts) *
          1000 / s1.config.video_timescale
    · rw [if_pos h2, if_pos ⟨by omega, h2⟩]
    · rw [if_neg h2, if_neg (fun hc => absurd hc.2 h2)]

/-- C4: push_video_chunk emits a media segment automatically if and only if,
after appending the new sample, at least two video samples are buffered and
the buffered dts span times 1000 divided by the video timescale reaches the
fragment duration; when it fires the emitted segment contains all buffered
video and audio samples and both buffers are cleared, and push_audio_chunk
never flushes. -/
theorem push_video_auto_flush (s : MuxideMuxerState) (data : List Nat) (t : Nat) (k : Bool)
    (hinit : s.initialized = true) :
    (s.push_video_chunk data t k).1 = Except.ok () ∧
    ((s.push_video_chunk data t k).2.pending_segments,
     (s.push_video_chunk data t k).2.video_samples,
     (s.push_video_chunk data t k).2.audio_samples) =
      (let pts := t * s.config.video_timescale / 1000000
       let vs := s.video_samples ++
         [({ pts := pts, dts := pts, data := data, is_sync := k } : VideoSample)]
       if 2 ≤ vs.length ∧
           s.config.fragment_duration_ms ≤
             ((vs.getLastD default).dts - (vs.getD 0 default).dts) * 1000 /
               s.config.video_timescale
       then (s.pending_segments ++
              [build_media_segment_av vs s.audio_samples s.video_sequence_number
                s.video_base_media_decode_time s.audio_base_media_decode_time s.config],
             [], [])
       else (s.pending_segments, vs, s.audio_samples)) ∧
    (∀ data' t' d',
      (s.push_audio_chunk data' t' d').2.pending_segments = s.pending_segments ∧
      (s.push_audio_chunk data' t' d').2.video_samples = s.video_samples) := by
  refine ⟨by simp [MuxideMuxerState.push_video_chunk, hinit], ?_, ?_⟩
  · have hpush : (s.push_video_chunk data t k).2 =
        MuxideMuxerState.check_and_flush_segments
          { s with
            video_samples := s.video_samples ++
              [({ pts := t * s.config.video_timescale / 1000000
                  dts := t * s.config.video_timescale / 1000000
                  data := data, is_sync := k } : VideoSample)]
            video_frame_count := s.video_frame_count + 1 } := by
      simp [MuxideMuxerState.push_video_chunk, hinit]
    rw [hpush, check_and_flush_eq]
    dsimp only
    by_cases hc : 2 ≤ (s.video_samples ++
        [({ pts := t * s.config.video_timescale / 1000000
            dts := t * s.config.video_timescale / 1000000
            data := data, is_sync := k } : VideoSample)]).length ∧
        s.config.fragment_duration_ms ≤
          (((s.video_samples ++
              [({ pts := t * s.config.video_timescale / 1000000
                  dts := t * s.config.video_timescale / 1000000
                  data := data, is_sync := k } : VideoSample)]).getLastD default).dts -
            ((s.video_samples ++
              [({ pts := t * s.config.video_timescale / 1000000
                  dts := t * s.config.video_timescale / 1000000
                  data := data, is_sync := k } : VideoSample)]).getD 0 default).dts) * 1000 /
            s.config.video_timescale
    · rw [if_pos hc, if_pos hc,
        flush_segments_eq _ (by simp)]
    · rw [if_neg hc, if_neg hc]
  · intro data' t' d'
    constructor <;>
      · simp only [MuxideMuxerState.push_audio_chunk]
        split
        · simp
        · split
          · simp
          · simp

/-- Witness for C4: on a concrete initialized state, a push below the
threshold emits nothing and audio pushes leave pending segments unchanged. -/
theorem push_video_auto_flush_witness :
    (mux1.push_video_chunk [0x41] 0 false).1 = Except.ok () ∧
    (muxA.push_audio_chunk [0x21] 0 21333).2.pending_segments = muxA.pending_segments :=
  ⟨(push_video_auto_flush mux1 [0x41] 0 false rfl).1,
   ((push_video_auto_flush muxA [0x41] 0 false rfl).2.2 [0x21] 0 21333).1⟩

/-- C2: build_moof_av yields a byte string of identical length for any values
of its data-offset arguments, so the moof size measured with placeholder zero
offsets equals the size of the final moof; the emitted media segment is
exactly the moof rebuilt with video data_offset equal to that very moof's
length plus 8 (the mdat header) and audio data_offset equal to the video
offset plus the total video payload size, followed by the mdat header and the
video-then-audio payload bytes. -/
theorem trun_data_offsets_exact (v : List VideoSample) (a : List AudioSample)
    (sn vb ab : Nat) (config : MuxideConfig) :
    (∀ o1 o2 o1' o2' : Nat, ∀ ha : Bool,
      (build_moof_av v a sn vb ab o1 o2 ha).length =
        (build_moof_av v a sn vb ab o1' o2' ha).length) ∧
    (let ha := config.audio_sample_rate.isSome && config.audio_channels.isSome && !a.isEmpty
     let vsz := (v.map fun s => s.data.length).sum
     let asz := (a.map fun s => s.data.length).sum
     let moofLen := (build_moof_av v a sn vb ab 0 0 ha).length
     let moof := build_moof_av v a sn vb ab (moofLen + 8) (moofLen + 8 + vsz) ha
     moof.length = moofLen ∧
     build_media_segment_av v a sn vb ab config =
       moof ++ u32be (8 + (vsz + asz)) ++ [0x6d, 0x64, 0x61, 0x74] ++
         (v.map fun s => s.data).flatten ++ (a.map fun s => s.data).flatten) := by
  refine ⟨?_, ?_, ?_⟩
  · intro o1 o2 o1' o2' ha
    simp [build_moof_av_length]
  · simp [build_moof_av_length]
  · rfl

/-- C9: with an empty video buffer, flush_segments is a complete no-op even
when audio samples are buffered, and get_complete_file on such a state returns
only the init segment plus previously flushed segments, leaving the audio
buffer and audio base decode time untouched (so buffered audio never reaches
any output). -/
theorem empty_video_flush_noop (s : MuxideMuxerState) (h : s.video_samples = []) :
    s.flush_segments = s ∧
    (s.initialized = true →
      s.force_flush = (Except.ok (), s) ∧
      s.get_complete_file =
        (Except.ok (s.init_segment ++ s.pending_segments.flatten),
         { s with pending_segments := [] })) := by
  have hne : s.video_samples.isEmpty = true := by simp [h]
  have hflush : s.flush_segments = s := by
    simp [MuxideMuxerState.flush_segments, hne]
  refine ⟨hflush, ?_⟩
  intro hinit
  have hforce : s.force_flush = (Except.ok (), s) := by
    simp [MuxideMuxerState.force_flush, hinit, hflush]
  refine ⟨hforce, ?_⟩
  simp [MuxideMuxerState.get_complete_file, hinit, hforce]

/-- Witness for C9 at a concrete state holding one buffered audio sample and a
previously flushed segment. -/
theorem empty_video_flush_noop_witness :
    muxA9.flush_segments = muxA9 ∧
    muxA9.get_complete_file =
      (Except.ok (muxA9.init_segment ++ muxA9.pending_segments.flatten),
       { muxA9 with pending_segments := [] }) :=
  ⟨(empty_video_flush_noop muxA9 rfl).1,
   ((empty_video_flush_noop muxA9 rfl).2 rfl).2⟩

/-- Last element with default is indexing at `length - 1` with default. -/
theorem getLastD_eq_getD {α : Type} (l : List α) (d : α) :
    l.getLastD d = l.getD (l.length - 1) d := by
  cases l with
  | nil => rfl
  | cons a l =>
    simp [List.getLastD_eq_getLast?, List.getLast?_eq_getElem?, List.getD_eq_getElem?_getD]

/-- C10: under the input contract that buffered video dts values are
monotonically non-decreasing, neither u64 subtraction of the muxer
underflows: the guarded form of the `last_dts - first_dts` span used by the
auto-flush check and the guarded form of every per-sample dts delta used by
the video trun serialization all succeed, returning exactly the values the
total embedding computes; the microsecond-to-tick conversion applied by
push_video_chunk preserves timestamp monotonicity, so pushes that respect the
contract keep the buffer monotone. -/
theorem monotone_dts_no_underflow (samples : List VideoSample)
    (hmono : ∀ j, j < samples.length → ∀ i, i ≤ j →
      (samples.getD i default).dts ≤ (samples.getD j default).dts) :
    check_duration_ticks? samples =
      some ((samples.getLastD default).dts - (samples.getD 0 default).dts) ∧
    (∀ i, i < samples.length →
      video_trun_duration? samples i = some (video_trun_duration samples i)) ∧
    (∀ t1 t2 ts : Nat, t1 ≤ t2 → t1 * ts / 1000000 ≤ t2 * ts / 1000000) := by
  refine ⟨?_, ?_, ?_⟩
  · rcases samples with _ | ⟨a, rest⟩
    · rfl
    · have hle : ((a :: rest).getD 0 default).dts ≤
          ((a :: rest).getD ((a :: rest).length - 1) default).dts :=
        hmono ((a :: rest).length - 1) (by simp) 0 (by omega)
      rw [check_duration_ticks?, getLastD_eq_getD, checked_sub, if_pos hle]
  · intro i hi
    rw [video_trun_duration?, video_trun_duration]
    by_cases h1 : i + 1 < samples.length
    · have hle := hmono (i + 1) h1 i (by omega)
      rw [if_pos h1, if_pos h1, checked_sub, if_pos hle]
      rfl
    · rw [if_neg h1, if_neg h1]
      by_cases h0 : 0 < i
      · have hle := hmono i hi (i - 1) (by omega)
        rw [if_pos h0, if_pos h0, checked_sub, if_pos hle]
        rfl
      · rw [if_neg h0, if_neg h0]
  · intro t1 t2 ts h
    exact Nat.div_le_div_right (Nat.mul_le_mul_right ts h)

/-- A concrete two-sample buffer with non-decreasing dts values. -/
def vsMono : List VideoSample :=
  [{ pts := 0, dts := 0, data := [1], is_sync := true },
   { pts := 3000, dts := 3000, data := [2], is_sync := false }]

/-- Witness for C10 at a concrete monotone buffer. -/
theorem monotone_dts_no_underflow_witness :
    check_duration_ticks? vsMono =
      some ((vsMono.getLastD default).dts - (vsMono.getD 0 default).dts) ∧
    video_trun_duration? vsMono 0 = some (video_trun_duration vsMono 0) :=
  ⟨(monotone_dts_no_underflow vsMono (by decide)).1,
   (monotone_dts_no_underflow vsMono (by decide)).2.1 0 (by decide)⟩

/-- When no start code exists anywhere, the scan loop emits nothing. -/
theorem annex_b_loop_no_code (l : List Nat) (i : Nat)
    (h : ∀ j, j < l.length → is_start_code_4 l j = false ∧ is_start_code_3 l j = false) :
    annex_b_loop l i = [] := by
  by_cases hlt : i < l.length
  · have h4 : ¬is_start_code_4 l i = true := by simp [(h i hlt).1]
    have h3 : ¬is_start_code_3 l i = true := by simp [(h i hlt).2]
    unfold annex_b_loop
    rw [dif_pos hlt, dif_neg h4, dif_neg h3]
    exact annex_b_loop_no_code l (i + 1) h
  · unfold annex_b_loop
    rw [dif_neg hlt]
termination_by l.length - i
decreasing_by omega

/-- C8: annex_b_to_avcc scans for start codes, prefers the 4-byte code over
the 3-byte one at the same index (the two can in fact never match at the same
index, and whenever the 4-byte test succeeds the scan consumes 4 bytes),
emits each NAL payload as a 4-byte big-endian length prefix plus payload with
trailing zero padding before the next start code stripped, returns the empty
byte string on input with no start code, and maps the concrete two-NAL input
of the spec to its expected output. -/
theorem annex_b_conversion_spec :
    annex_b_to_avcc [0x00, 0x00, 0x00, 0x01, 0x67, 0x42, 0xC0, 0x1E,
        0x00, 0x00, 0x00, 0x01, 0x68, 0xCE, 0x3C, 0x80] =
      [0x00, 0x00, 0x00, 0x04, 0x67, 0x42, 0xC0, 0x1E,
       0x00, 0x00, 0x00, 0x04, 0x68, 0xCE, 0x3C, 0x80] ∧
    annex_b_to_avcc [0x00, 0x00, 0x00, 0x01, 0x67, 0x00, 0x00, 0x00, 0x00, 0x01, 0x68] =
      [0x00, 0x00, 0x00, 0x01, 0x67, 0x00, 0x00, 0x00, 0x01, 0x68] ∧
    (∀ (l : List Nat),
      (∀ j, j < l.length → is_start_code_4 l j = false ∧ is_start_code_3 l j = false) →
      annex_b_to_avcc l = []) ∧
    (∀ (l : List Nat) (i : Nat), ¬(is_start_code_4 l i = true ∧ is_start_code_3 l i = true)) ∧
    (∀ (l : List Nat) (i : Nat), is_start_code_4 l i = true →
      annex_b_loop l i =
        (let nal_end := strip_trailing_zeros l (i + 4) (find_next_start_code l (i + 4))
         (if i + 4 < nal_end then
            u32be (nal_end - (i + 4)) ++ (l.drop (i + 4)).take (nal_end - (i + 4))
          else []) ++ annex_b_loop l nal_end)) := by
  refine ⟨?_, ?_, ?_, ?_, ?_⟩
  · simp [annex_b_to_avcc, annex_b_loop, find_next_start_code, strip_trailing_zeros,
      is_start_code_4, is_start_code_3, u32be]
  · simp [annex_b_to_avcc, annex_b_loop, find_next_start_code, strip_trailing_zeros,
      is_start_code_4, is_start_code_3, u32be]
  · intro l h
    exact annex_b_loop_no_code l 0 h
  · intro l i hc
    rcases hc with ⟨h4, h3⟩
    simp only [is_start_code_4, is_start_code_3, Bool.and_eq_true, beq_iff_eq,
      decide_eq_true_eq] at h4 h3
    omega
  · intro l i h4
    have hlt : i < l.length := by
      have := is_start_code_4_le l i h4
      omega
    conv_lhs => rw [annex_b_loop]
    rw [dif_pos hlt, dif_pos h4]

/-- Witness for C8: the no-start-code branch applied at a concrete input. -/
theorem annex_b_conversion_spec_witness :
    annex_b_to_avcc [0x01, 0x02, 0x03, 0x04, 0x05] = [] :=
  annex_b_conversion_spec.2.2.1 [0x01, 0x02, 0x03, 0x04, 0x05] (by decide)

/-- Indexing past a left append part reads the right part. -/
theorem getD_append_right' {A B : List Nat} {n : Nat} (d : Nat) (h : A.length ≤ n) :
    (A ++ B).getD n d = B.getD (n - A.length) d := by
  simp [List.getD_eq_getElem?_getD, List.getElem?_append_right h]

/-- Running `extract_sps_pps_from_avcc` on the payload shape produced by
`build_avcc` (version 1, ff, e1, u16 SPS length, SPS, 01, u16 PPS length,
PPS) recovers the SPS and PPS exactly, provided both length fields fit in a
u16. -/
theorem extract_on_avcc_payload (s q : List Nat) (b1 b2 b3 : Nat)
    (hsl : s.length < 2 ^ 16) (hql : q.length < 2 ^ 16) :
    extract_sps_pps_from_avcc
      (1 :: b1 :: b2 :: b3 :: 255 :: 225 :: (s.length / 2 ^ 8 % 256) :: (s.length % 256) ::
        (s ++ 1 :: (q.length / 2 ^ 8 % 256) :: (q.length % 256) :: q)) = Except.ok (s, q) := by
  set L := (1 :: b1 :: b2 :: b3 :: 255 :: 225 :: (s.length / 2 ^ 8 % 256) :: (s.length % 256) ::
      (s ++ 1 :: (q.length / 2 ^ 8 % 256) :: (q.length % 256) :: q)) with hL
  have hg0 : L.getD 0 0 = 1 := rfl
  have hg5 : L.getD 5 0 % 32 = 1 := by rw [hL]; simp
  have hlen : L.length = 11 + s.length + q.length := by
    rw [hL]; simp; omega
  have hsl_eq : L.getD 6 0 * 256 + L.getD 7 0 = s.length := by
    have h6 : L.getD 6 0 = s.length / 2 ^ 8 % 256 := by rw [hL]; simp
    have h7 : L.getD 7 0 = s.length % 256 := by rw [hL]; simp
    rw [h6, h7]; omega
  have hAB : L = (1 :: b1 :: b2 :: b3 :: 255 :: 225 :: (s.length / 2 ^ 8 % 256) ::
      (s.length % 256) :: s) ++
      (1 :: (q.length / 2 ^ 8 % 256) :: (q.length % 256) :: q) := by
    rw [hL]; simp
  have hAB' : L = (1 :: b1 :: b2 :: b3 :: 255 :: 225 :: (s.length / 2 ^ 8 % 256) ::
      (s.length % 256) :: (s ++ [1, q.length / 2 ^ 8 % 256, q.length % 256])) ++ q := by
    rw [hL]; simp
  have hnum_pps : L.getD (8 + (L.getD 6 0 * 256 + L.getD 7 0)) 0 = 1 := by
    rw [hsl_eq, hAB, getD_append_right' 0 (by simp; omega)]
    rw [show 8 + s.length -
      ((1 :: b1 :: b2 :: b3 :: 255 :: 225 :: (s.length / 2 ^ 8 % 256) ::
        (s.length % 256) :: s) : List Nat).length = 0 by simp; omega]
    rfl
  have hql_eq : L.getD (8 + (L.getD 6 0 * 256 + L.getD 7 0) + 1) 0 * 256 +
      L.getD (8 + (L.getD 6 0 * 256 + L.getD 7 0) + 2) 0 = q.length := by
    rw [hsl_eq, hAB, getD_append_right' 0 (by simp; omega),
      getD_append_right' 0 (by simp; omega)]
    rw [show 8 + s.length + 1 -
      ((1 :: b1 :: b2 :: b3 :: 255 :: 225 :: (s.length / 2 ^ 8 % 256) ::
        (s.length % 256) :: s) : List Nat).length = 1 by simp; omega]
    rw [show 8 + s.length + 2 -
      ((1 :: b1 :: b2 :: b3 :: 255 :: 225 :: (s.length / 2 ^ 8 % 256) ::
        (s.length % 256) :: s) : List Nat).length = 2 by simp; omega]
    show q.length / 2 ^ 8 % 256 * 256 + q.length % 256 = q.length
    omega
  have hdrop8 : L.drop 8 = s ++ 1 :: (q.length / 2 ^ 8 % 256) :: (q.length % 256) :: q := by
    rw [hL]; simp
  have hdrop11 : L.drop (8 + (L.getD 6 0 * 256 + L.getD 7 0) + 3) = q := by
    rw [hsl_eq, hAB']
    exact List.drop_left' (by simp; omega)
  have hskip : skip_additional_sps L (1 - 1) (8 + (L.getD 6 0 * 256 + L.getD 7 0)) =
      Except.ok (8 + (L.getD 6 0 * 256 + L.getD 7 0)) := by
    norm_num [skip_additional_sps]
  unfold extract_sps_pps_from_avcc
  rw [if_neg (show ¬(L.length < 7) by rw [hlen]; omega)]
  rw [if_neg (show ¬(L.getD 0 0 ≠ 1) by rw [hg0]; simp)]
  dsimp only
  rw [if_neg (show ¬(L.getD 5 0 % 32 = 0) by rw [hg5]; omega)]
  rw [if_neg (show ¬(6 + 2 > L.length) by rw [hlen]; omega)]
  rw [if_neg (show ¬(8 + (L.getD 6 0 * 256 + L.getD 7 0) > L.length) by
    rw [hsl_eq, hlen]; omega)]
  rw [hg5, hskip]
  dsimp only
  rw [if_neg (show ¬(8 + (L.getD 6 0 * 256 + L.getD 7 0) ≥ L.length) by
    rw [hsl_eq, hlen]; omega)]
  rw [if_neg (show ¬(L.getD (8 + (L.getD 6 0 * 256 + L.getD 7 0)) 0 = 0) by
    rw [hnum_pps]; omega)]
  rw [if_neg (show ¬(8 + (L.getD 6 0 * 256 + L.getD 7 0) + 1 + 2 > L.length) by
    rw [hsl_eq, hlen]; omega)]
  rw [if_neg (show ¬(8 + (L.getD 6 0 * 256 + L.getD 7 0) + 3 +
      (L.getD (8 + (L.getD 6 0 * 256 + L.getD 7 0) + 1) 0 * 256 +
       L.getD (8 + (L.getD 6 0 * 256 + L.getD 7 0) + 2) 0) > L.length) by
    rw [hql_eq, hsl_eq, hlen]; omega)]
  rw [hql_eq, hdrop11, hsl_eq, hdrop8]
  simp

/-- C6 counterexample: the claim as stated is false — `build_avcc` returns a
full MP4 box whose first byte is the high byte of the 32-bit size field, so
feeding its output directly to `extract_sps_pps_from_avcc` fails the
configuration-version check instead of returning the SPS/PPS pair. -/
theorem build_avcc_roundtrip_counterexample :
    extract_sps_pps_from_avcc (build_avcc cfg1) =
      Except.error "Invalid avcC version: 0" ∧
    extract_sps_pps_from_avcc (build_avcc cfg1) ≠
      Except.ok (cfg1.sps, cfg1.pps) := by
  have h : extract_sps_pps_from_avcc (build_avcc cfg1) =
      Except.error "Invalid avcC version: 0" := rfl
  exact ⟨h, by rw [h]; intro hc; cases hc⟩

/-- C6 (amended): for any configuration whose SPS and PPS are non-empty and
whose lengths fit in a u16, applying `extract_sps_pps_from_avcc` to the
payload of `build_avcc` — its output with the 8-byte box header (size plus
`avcC` tag) dropped — returns exactly the pair (sps, pps). -/
theorem build_avcc_roundtrip (config : MuxideConfig)
    (_hs : config.sps ≠ []) (_hp : config.pps ≠ [])
    (hsl : config.sps.length < 2 ^ 16) (hpl : config.pps.length < 2 ^ 16) :
    extract_sps_pps_from_avcc ((build_avcc config).drop 8) =
      Except.ok (config.sps, config.pps) := by
  have hdrop : (build_avcc config).drop 8 =
      1 :: config.sps.getD 1 0x42 :: config.sps.getD 2 0x00 :: config.sps.getD 3 0x1e ::
      255 :: 225 :: (config.sps.length / 2 ^ 8 % 256) :: (config.sps.length % 256) ::
      (config.sps ++ 1 :: (config.pps.length / 2 ^ 8 % 256) :: (config.pps.length % 256) ::
        config.pps) := by
    simp [build_avcc, build_box, u32be, u16be]
  rw [hdrop]
  exact extract_on_avcc_payload config.sps config.pps _ _ _ hsl hpl

/-- Witness for the amended C6 at the concrete test configuration. -/
theorem build_avcc_roundtrip_witness :
    extract_sps_pps_from_avcc ((build_avcc cfg1).drop 8) =
      Except.ok (cfg1.sps, cfg1.pps) :=
  build_avcc_roundtrip cfg1 (by decide) (by decide) (by decide) (by decide)

/-- Big-endian 16-bit read at index `i`, following the spec wording for the
avcC length fields (out-of-range reads yield zero bytes). -/
def spec_be16 (l : List Nat) (i : Nat) : Nat :=
  l.getD i 0 * 256 + l.getD (i + 1) 0

/-- Offset reached after skipping `n` parameter-set entries starting at
`offset`, each a u16 length followed by that many payload bytes; `none` as
soon as a declared entry does not fit inside the buffer.  Transcribed from the
specification's description of the avcC layout, independently of the
parser. -/
def spec_skip_entries (l : List Nat) : Nat → Nat → Option Nat
  | offset, 0 => some offset
  | offset, n + 1 =>
    if offset + 2 + spec_be16 l offset ≤ l.length then
      spec_skip_entries l (offset + 2 + spec_be16 l offset) n
    else none

/-- Well-formedness of an avcC record per the specification: length at least
7, version 1, SPS count at least 1, the first SPS length field and data in
bounds, every further SPS entry in bounds, then a PPS count byte present and
at least 1, and the first PPS length field and data in bounds. -/
def spec_avcc_well_formed (l : List Nat) : Bool :=
  decide (7 ≤ l.length) && (l.getD 0 0 == 1) && decide (1 ≤ l.getD 5 0 % 32) &&
  decide (8 ≤ l.length) && decide (8 + spec_be16 l 6 ≤ l.length) &&
  match spec_skip_entries l (8 + spec_be16 l 6) (l.getD 5 0 % 32 - 1) with
  | none => false
  | some offset =>
    decide (offset < l.length) && decide (1 ≤ l.getD offset 0) &&
    decide (offset + 3 ≤ l.length) && decide (offset + 3 + spec_be16 l (offset + 1) ≤ l.length)

/-- The first SPS of an avcC record, per the specification layout. -/
def spec_first_sps (l : List Nat) : List Nat :=
  (l.drop 8).take (spec_be16 l 6)

/-- The first PPS of an avcC record, per the specification layout. -/
def spec_first_pps (l : List Nat) : List Nat :=
  match spec_skip_entries l (8 + spec_be16 l 6) (l.getD 5 0 % 32 - 1) with
  | some offset => (l.drop (offset + 3)).take (spec_be16 l (offset + 1))
  | none => []

/-- Skipping from an offset at or past the end either errors or stays put. -/
theorem skip_from_past (l : List Nat) (n offset : Nat) (h : l.length ≤ offset) :
    (∃ e, skip_additional_sps l n offset = Except.error e) ∨
    (skip_additional_sps l n offset = Except.ok offset ∧ l.length ≤ offset) := by
  cases n with
  | zero => exact Or.inr ⟨rfl, h⟩
  | succ n =>
    left
    refine ⟨"avcC truncated at additional SPS", ?_⟩
    unfold skip_additional_sps
    rw [if_pos (by omega)]

/-- When the spec-side skip succeeds, the parser's skip loop agrees. -/
theorem skip_of_spec_some (l : List Nat) :
    ∀ n offset o, offset ≤ l.length → spec_skip_entries l offset n = some o →
      skip_additional_sps l n offset = Except.ok o ∧ o ≤ l.length := by
  intro n
  induction n with
  | zero =>
    intro offset o h hs
    simp only [spec_skip_entries] at hs
    cases hs
    exact ⟨rfl, h⟩
  | succ n ih =>
    intro offset o h hs
    simp only [spec_skip_entries] at hs
    by_cases hc : offset + 2 + spec_be16 l offset ≤ l.length
    · rw [if_pos hc] at hs
      have hrec := ih (offset + 2 + spec_be16 l offset) o (by omega) hs
      refine ⟨?_, hrec.2⟩
      unfold skip_additional_sps
      rw [if_neg (by have := hc; unfold spec_be16 at this; omega)]
      simpa [spec_be16] using hrec.1
    · rw [if_neg hc] at hs
      cases hs

/-- When the parser's skip loop succeeds with an in-bounds offset, the
spec-side skip agrees. -/
theorem spec_some_of_skip_ok (l : List Nat) :
    ∀ n offset o, offset ≤ l.length →
      skip_additional_sps l n offset = Except.ok o → o < l.length →
      spec_skip_entries l offset n = some o := by
  intro n
  induction n with
  | zero =>
    intro offset o h hk ho
    simp only [skip_additional_sps] at hk
    cases hk
    rfl
  | succ n ih =>
    intro offset o h hk ho
    unfold skip_additional_sps at hk
    by_cases hc2 : offset + 2 > l.length
    · rw [if_pos hc2] at hk
      cases hk
    · rw [if_neg hc2] at hk
      by_cases hfit : offset + 2 + (l.getD offset 0 * 256 + l.getD (offset + 1) 0) ≤ l.length
      · have hs := ih _ o hfit hk ho
        unfold spec_skip_entries
        rw [if_pos (by unfold spec_be16; omega)]
        simpa [spec_be16] using hs
      · exfalso
        rcases skip_from_past l n (offset + 2 + (l.getD offset 0 * 256 + l.getD (offset + 1) 0))
            (by omega) with ⟨e, he⟩ | ⟨hok, hle⟩
        · rw [he] at hk
          cases hk
        · rw [hok] at hk
          injection hk with hk
          omega


/-- C7: extract_sps_pps_from_avcc fails with its specific message exactly on
invalid input — length below 7 (avcC too short), configuration version other
than 1 (naming the byte), and on the concrete 7-byte record declaring an SPS
the buffer cannot hold it fails naming SPS-length truncation; it succeeds if
and only if the record is well formed per the spec layout (version 1, SPS
count at least 1, PPS count at least 1, every declared length field within
bounds), in which case it returns exactly the first SPS and the first PPS. -/
theorem extract_sps_pps_error_iff :
    extract_sps_pps_from_avcc [0x01, 0x42, 0xC0, 0x1E, 0xFF, 0xE1, 0x00] =
      Except.error "avcC truncated at SPS length" ∧
    (∀ l : List Nat, l.length < 7 →
      extract_sps_pps_from_avcc l = Except.error "avcC too short") ∧
    (∀ l : List Nat, 7 ≤ l.length → l.getD 0 0 ≠ 1 →
      extract_sps_pps_from_avcc l =
        Except.error ("Invalid avcC version: " ++ toString (l.getD 0 0))) ∧
    (∀ l : List Nat, spec_avcc_well_formed l = true →
      extract_sps_pps_from_avcc l = Except.ok (spec_first_sps l, spec_first_pps l)) ∧
    (∀ l : List Nat, (∃ r, extract_sps_pps_from_avcc l = Except.ok r) →
      spec_avcc_well_formed l = true) := by
  refine ⟨rfl, ?_, ?_, ?_, ?_⟩
  · intro l h
    unfold extract_sps_pps_from_avcc
    rw [if_pos h]
  · intro l h7 hne
    unfold extract_sps_pps_from_avcc
    rw [if_neg (by omega), if_pos hne]
  · intro l h
    unfold spec_avcc_well_formed at h
    rcases hsk : spec_skip_entries l (8 + spec_be16 l 6) (l.getD 5 0 % 32 - 1) with _ | offset
    · rw [hsk] at h
      simp at h
    · rw [hsk] at h
      simp only [Bool.and_eq_true, decide_eq_true_eq, beq_iff_eq] at h
      obtain ⟨⟨⟨⟨⟨h7, h01⟩, hns⟩, h8⟩, hsps⟩, ⟨⟨hoff, hpp⟩, hoff3⟩, hppd⟩ := h
      have hbe6 : spec_be16 l 6 = l.getD 6 0 * 256 + l.getD 7 0 := by simp [spec_be16]
      have hskip := skip_of_spec_some l (l.getD 5 0 % 32 - 1) (8 + spec_be16 l 6) offset
        (by omega) hsk
      unfold extract_sps_pps_from_avcc
      rw [if_neg (by omega)]
      rw [if_neg (show ¬(l.getD 0 0 ≠ 1) by rw [h01]; simp)]
      dsimp only
      rw [if_neg (by omega)]
      rw [if_neg (by omega)]
      rw [if_neg (show ¬(8 + (l.getD 6 0 * 256 + l.getD 7 0) > l.length) by
        rw [← hbe6]; omega)]
      rw [show skip_additional_sps l (l.getD 5 0 % 32 - 1)
          (8 + (l.getD 6 0 * 256 + l.getD 7 0)) = Except.ok offset by
        rw [← hbe6]; exact hskip.1]
      dsimp only
      rw [if_neg (by omega)]
      rw [if_neg (by omega)]
      rw [if_neg (by omega)]
      rw [if_neg (show ¬(offset + 3 + (l.getD (offset + 1) 0 * 256 + l.getD (offset + 2) 0) >
          l.length) by
        have h9 := hppd
        simp only [spec_be16, show offset + 1 + 1 = offset + 2 from by omega] at h9
        omega)]
      unfold spec_first_sps spec_first_pps
      rw [hsk, hbe6]
      simp [spec_be16]
  · intro l hr
    obtain ⟨r, hok⟩ := hr
    unfold extract_sps_pps_from_avcc at hok
    by_cases c1 : l.length < 7
    · rw [if_pos c1] at hok; cases hok
    rw [if_neg c1] at hok
    by_cases c2 : l.getD 0 0 ≠ 1
    · rw [if_pos c2] at hok; cases hok
    rw [if_neg c2] at hok
    dsimp only at hok
    by_cases c3 : l.getD 5 0 % 32 = 0
    · rw [if_pos c3] at hok; cases hok
    rw [if_neg c3] at hok
    by_cases c4 : 6 + 2 > l.length
    · rw [if_pos c4] at hok; cases hok
    rw [if_neg c4] at hok
    by_cases c5 : 8 + (l.getD 6 0 * 256 + l.getD 7 0) > l.length
    · rw [if_pos c5] at hok; cases hok
    rw [if_neg c5] at hok
    rcases hs : skip_additional_sps l (l.getD 5 0 % 32 - 1)
        (8 + (l.getD 6 0 * 256 + l.getD 7 0)) with e | offset
    · rw [hs] at hok
      dsimp only at hok
      cases hok
    · rw [hs] at hok
      dsimp only at hok
      by_cases c6 : offset ≥ l.length
      · rw [if_pos c6] at hok; cases hok
      rw [if_neg c6] at hok
      by_cases c7 : l.getD offset 0 = 0
      · rw [if_pos c7] at hok; cases hok
      rw [if_neg c7] at hok
      by_cases c8 : offset + 1 + 2 > l.length
      · rw [if_pos c8] at hok; cases hok
      rw [if_neg c8] at hok
      by_cases c9 : offset + 3 + (l.getD (offset + 1) 0 * 256 + l.getD (offset + 2) 0) > l.length
      · rw [if_pos c9] at hok; cases hok
      have hbe6 : spec_be16 l 6 = l.getD 6 0 * 256 + l.getD 7 0 := by simp [spec_be16]
      have hspec := spec_some_of_skip_ok l (l.getD 5 0 % 32 - 1)
        (8 + (l.getD 6 0 * 256 + l.getD 7 0)) offset (by omega) hs (by omega)
      unfold spec_avcc_well_formed
      rw [show spec_skip_entries l (8 + spec_be16 l 6) (l.getD 5 0 % 32 - 1) = some offset by
        rw [hbe6]; exact hspec]
      simp only [Bool.and_eq_true, decide_eq_true_eq, beq_iff_eq]
      exact ⟨⟨⟨⟨⟨by omega, by omega⟩, by omega⟩, by omega⟩, by rw [hbe6]; omega⟩,
        ⟨⟨by omega, by omega⟩, by omega⟩, by
          simp only [spec_be16, show offset + 1 + 1 = offset + 2 from by omega]
          omega⟩


/-- The avcC record used by the repository's own extract test: one 10-byte
SPS and one 4-byte PPS. -/
def avccExample : List Nat :=
  [0x01, 0x42, 0xC0, 0x1E, 0xFF, 0xE1, 0x00, 0x0A,
   0x67, 0x42, 0xC0, 0x1E, 0xD9, 0x00, 0x50, 0x05, 0xBA, 0x10,
   0x01, 0x00, 0x04, 0x68, 0xCE, 0x3C, 0x80]

/-- Witness for C7: the success branch applied at a concrete well-formed
record. -/
theorem extract_sps_pps_error_iff_witness :
    extract_sps_pps_from_avcc avccExample =
      Except.ok (spec_first_sps avccExample, spec_first_pps avccExample) :=
  extract_sps_pps_error_iff.2.2.2.1 avccExample (by decide)

end Muxide
